import Mathlib

/-!
Shallow embedding of the vidaa-server data-access layer (src/src/main.rs):
the User record model, the row-to-record mapping of tokio_pg_mapper, the
three repository operations of mod db (add_user, get_users, get_user_by_id),
the error taxonomy MyError with its ResponseError translation, and the
request handlers of mod handlers.

The database client is modelled as a structure of two functions (prepare and
query); a query either fails with a driver error (modelled as a String) or
yields a list of rows, a row being a list of named SQL values.  Rust panics
(unwrap / expect) are modelled by a dedicated fault outcome, distinct from
returning a typed error.  Each db operation and handler also returns the
list of query calls it issued, so that statements executed against the
store are observable.
-/

/-- An SQL value: a bound statement parameter or a row column value. -/
inductive SqlValue where
  | text (s : String)
  | int (n : Int)
  deriving DecidableEq, Repr

/-- A relational row: named columns with their values
(tokio_postgres rows are accessed by column name here). -/
abbrev Row := List (String × SqlValue)

/-- tokio_pg_mapper error (row-to-record conversion failure):
a column is missing or has an incompatible type. -/
inductive PGMError where
  | columnNotFound
  | conversion (col : String)
  deriving DecidableEq, Repr

/-- mod errors: the typed error enum MyError of the service. -/
inductive MyError where
  | NotFound
  | PGError (e : String)
  | PGMError (e : PGMError)
  | PoolError (msg : String)
  deriving DecidableEq, Repr

/-- mod models: the User record. Field declaration order is
email, first_name, last_name, username. -/
structure User where
  email : String
  first_name : String
  last_name : String
  username : String
  deriving DecidableEq, Repr

/-- An HTTP response body, kept abstract of serde serialization. -/
inductive Body where
  | empty
  | text (s : String)
  | jsonUser (u : User)
  | jsonUsers (us : List User)
  deriving DecidableEq, Repr

/-- An HTTP response: status code and body. -/
structure HttpResponse where
  status : Nat
  body : Body
  deriving DecidableEq, Repr

/-- impl ResponseError for MyError: NotFound responds 404 with empty body,
PoolError responds 500 carrying the pool error message in the body, and
every other variant responds 500 with empty body. -/
def MyError.error_response : MyError → HttpResponse
  | .NotFound => ⟨404, .empty⟩
  | .PoolError msg => ⟨500, .text msg⟩
  | _ => ⟨500, .empty⟩

/-- The canonical ordered field list of the User record, in struct
declaration order, as generated by the PostgresMapper derive. -/
def User.field_names : List String :=
  ["email", "first_name", "last_name", "username"]

/-- User::sql_table_fields() of the PostgresMapper derive: the canonical
field list, each field qualified with the table name, joined by commas. -/
def User.sql_table_fields : String :=
  String.intercalate ", " (User.field_names.map (fun f => "users." ++ f))

/-- Access a User field by its column name (empty for an unknown name). -/
def User.get_field (u : User) : String → String
  | "email" => u.email
  | "first_name" => u.first_name
  | "last_name" => u.last_name
  | "username" => u.username
  | _ => ""

/-- Read a text column from a row by name: fails with columnNotFound if the
column is absent and with a conversion error if it is not a text value. -/
def get_text_column (row : Row) (col : String) : Except PGMError String :=
  match row.lookup col with
  | none => .error .columnNotFound
  | some (.text s) => .ok s
  | some _ => .error (.conversion col)

/-- User::from_row_ref of the PostgresMapper derive: build a User from a
row by position-independent column-name lookup of the four fields. -/
def User.from_row_ref (row : Row) : Except PGMError User := do
  let email ← get_text_column row "email"
  let first_name ← get_text_column row "first_name"
  let last_name ← get_text_column row "last_name"
  let username ← get_text_column row "username"
  return ⟨email, first_name, last_name, username⟩

/-- Outcome of a Rust computation: a value, a returned typed error, or a
panic (unwrap / expect), which is not a returned value at all. -/
inductive Outcome (α : Type) where
  | ok (a : α)
  | err (e : MyError)
  | fault (msg : String)
  deriving DecidableEq, Repr

/-- The panic message of Result::unwrap on an Err value. -/
def unwrap_msg : String := "called Result::unwrap() on an Err value"

/-- A pooled database client: prepare turns statement text into a prepared
statement (modelled by its text), query executes a prepared statement with
bound parameters, either failing with a driver error or yielding rows. -/
structure Client where
  prepare : String → Except String String
  query : String → List SqlValue → Except String (List Row)

/-- One statement execution against the store: statement and parameters. -/
structure QueryCall where
  stmt : String
  params : List SqlValue
  deriving DecidableEq, Repr

/-- rows.iter().map(|row| User::from_row_ref(row).unwrap()).collect():
maps each row to a User, panicking at the first row whose conversion
fails (the unwrap), in row order. -/
def map_rows_unwrap : List Row → Outcome (List User)
  | [] => .ok []
  | row :: rest =>
    match User.from_row_ref row with
    | .error _ => .fault unwrap_msg
    | .ok u =>
      match map_rows_unwrap rest with
      | .ok us => .ok (u :: us)
      | .err e => .err e
      | .fault m => .fault m

/-- Modelled from the spec: the file sql/add_user.sql is not among the
sources; the spec says CreateUser "builds an INSERT statement templated
with the canonical field list". -/
def add_user_sql : String :=
  "INSERT INTO testing.users($table_fields) VALUES ($1, $2, $3, $4) RETURNING $table_fields"

/-- Modelled from the spec: the file sql/get_users.sql is not among the
sources; the spec says ListUsers "builds a SELECT over all rows with the
canonical field list". -/
def get_users_sql : String :=
  "SELECT $table_fields FROM testing.users"

/-- The SELECT-by-id statement template, inline in db::get_user_by_id. -/
def get_user_by_id_sql : String :=
  "SELECT $table_fields FROM testing.users WHERE id = $1"

/-- The INSERT statement text after splicing the canonical field list. -/
def add_user_stmt_text : String :=
  add_user_sql.replace "$table_fields" User.sql_table_fields

/-- The SELECT-all statement text after splicing the canonical field list. -/
def get_users_stmt_text : String :=
  get_users_sql.replace "$table_fields" User.sql_table_fields

/-- The SELECT-by-id statement text after splicing the canonical field list. -/
def get_user_by_id_stmt_text : String :=
  get_user_by_id_sql.replace "$table_fields" User.sql_table_fields

/-- The parameters bound by db::add_user, in the order written in the
source: email, first_name, last_name, username. -/
def add_user_params (u : User) : List SqlValue :=
  [.text u.email, .text u.first_name, .text u.last_name, .text u.username]

/-- db::add_user: prepare the INSERT (unwrap on failure), execute it with
the four bound fields (query failure becomes MyError::PGError via the
question-mark conversion), map every returned row with unwrap, and pop the
mapped vector: its last element on success, MyError::NotFound if empty. -/
def db.add_user (client : Client) (user_info : User) : Outcome User × List QueryCall :=
  match client.prepare add_user_stmt_text with
  | .error _ => (.fault unwrap_msg, [])
  | .ok stmt =>
    match client.query stmt (add_user_params user_info) with
    | .error e => (.err (.PGError e), [⟨stmt, add_user_params user_info⟩])
    | .ok rows =>
      match map_rows_unwrap rows with
      | .fault m => (.fault m, [⟨stmt, add_user_params user_info⟩])
      | .err e => (.err e, [⟨stmt, add_user_params user_info⟩])
      | .ok users =>
        match users.getLast? with
        | none => (.err .NotFound, [⟨stmt, add_user_params user_info⟩])
        | some u => (.ok u, [⟨stmt, add_user_params user_info⟩])

/-- db::get_users: prepare the SELECT (expect on failure), execute with no
parameters; on success map every row with unwrap into a vector, on
execution failure return MyError::PGError. -/
def db.get_users (client : Client) : Outcome (List User) × List QueryCall :=
  match client.prepare get_users_stmt_text with
  | .error _ => (.fault "failed to prepare sql statement", [])
  | .ok stmt =>
    match client.query stmt [] with
    | .error e => (.err (.PGError e), [⟨stmt, []⟩])
    | .ok rows =>
      match map_rows_unwrap rows with
      | .ok users => (.ok users, [⟨stmt, []⟩])
      | .err e => (.err e, [⟨stmt, []⟩])
      | .fault m => (.fault m, [⟨stmt, []⟩])

/-- db::get_user_by_id: prepare the SELECT-by-id (expect on failure),
execute with the id bound as the single parameter, map every returned row
with unwrap, and pop the mapped vector: its last element on success,
MyError::NotFound if empty. -/
def db.get_user_by_id (client : Client) (user_id : Nat) : Outcome User × List QueryCall :=
  match client.prepare get_user_by_id_stmt_text with
  | .error _ => (.fault "failed to prepare sql statement", [])
  | .ok stmt =>
    match client.query stmt [.int user_id] with
    | .error e => (.err (.PGError e), [⟨stmt, [.int user_id]⟩])
    | .ok rows =>
      match map_rows_unwrap rows with
      | .fault m => (.fault m, [⟨stmt, [.int user_id]⟩])
      | .err e => (.err e, [⟨stmt, [.int user_id]⟩])
      | .ok users =>
        match users.getLast? with
        | none => (.err .NotFound, [⟨stmt, [.int user_id]⟩])
        | some u => (.ok u, [⟨stmt, [.int user_id]⟩])

/-- What reaches the wire from a handler invocation: an HTTP response
(success, or a typed error rendered through ResponseError), or a task
fault when the handler panicked. -/
inductive Wire where
  | response (r : HttpResponse)
  | fault (msg : String)
  deriving DecidableEq, Repr

/-- The result of acquiring a connection from the deadpool Pool:
a client, or a pool error carrying the driver diagnostic message. -/
abbrev PoolResult := Except String Client

/-- handlers::add_user (POST /users): acquire a client (pool failure maps
to MyError::PoolError and returns its response), call db::add_user and
expect its result — a returned repository error panics the handler with
"could not create user" — then respond 200 with the record as JSON. -/
def handlers.add_user (db_pool : PoolResult) (user : User) : Wire × List QueryCall :=
  match db_pool with
  | .error e => (.response (MyError.PoolError e).error_response, [])
  | .ok client =>
    match db.add_user client user with
    | (.ok new_user, t) => (.response ⟨200, .jsonUser new_user⟩, t)
    | (.err _, t) => (.fault "could not create user", t)
    | (.fault m, t) => (.fault m, t)

/-- handlers::get_users (GET /users): acquire a client (pool failure maps
to MyError::PoolError), call db::get_users, propagate its error with the
question mark (rendered through ResponseError), respond 200 with the JSON
array. -/
def handlers.get_users (db_pool : PoolResult) : Wire × List QueryCall :=
  match db_pool with
  | .error e => (.response (MyError.PoolError e).error_response, [])
  | .ok client =>
    match db.get_users client with
    | (.ok users, t) => (.response ⟨200, .jsonUsers users⟩, t)
    | (.err e, t) => (.response e.error_response, t)
    | (.fault m, t) => (.fault m, t)

/-- handlers::get_user_by_id (GET /users/{user_id}): acquire a client
(pool failure maps to MyError::PoolError), call db::get_user_by_id,
propagate its error with the question mark (rendered through
ResponseError), respond 200 with the JSON record. -/
def handlers.get_user_by_id (db_pool : PoolResult) (user_id : Nat) : Wire × List QueryCall :=
  match db_pool with
  | .error e => (.response (MyError.PoolError e).error_response, [])
  | .ok client =>
    match db.get_user_by_id client user_id with
    | (.ok user, t) => (.response ⟨200, .jsonUser user⟩, t)
    | (.err e, t) => (.response e.error_response, t)
    | (.fault m, t) => (.fault m, t)

/-! Concrete fixtures: canonical clients used to exercise the operations. -/

/-- The sample record of the spec scenario. -/
def sample_user : User := ⟨"a@x.com", "A", "B", "ab"⟩

/-- A client whose statements prepare fine and whose queries yield no rows. -/
def empty_result_client : Client :=
  { prepare := fun s => .ok s, query := fun _ _ => .ok [] }

/-- A row lacking the email column: its conversion to a User fails. -/
def bad_row : Row :=
  [("first_name", .text "A"), ("last_name", .text "B"), ("username", .text "ab")]

/-- A client whose queries yield exactly one unconvertible row. -/
def bad_row_client : Client :=
  { prepare := fun s => .ok s, query := fun _ _ => .ok [bad_row] }

/-- The row holding a record, under the canonical column names. -/
def User.to_row (u : User) : Row :=
  [("email", .text u.email), ("first_name", .text u.first_name),
   ("last_name", .text u.last_name), ("username", .text u.username)]

/-- First record of the two-row fixture. -/
def user_a : User := ⟨"a@x.com", "A", "AA", "ua"⟩

/-- Second record of the two-row fixture. -/
def user_b : User := ⟨"b@x.com", "B", "BB", "ub"⟩

/-- A client whose queries yield two rows, user_a first and user_b second. -/
def two_row_client : Client :=
  { prepare := fun s => .ok s, query := fun _ _ => .ok [user_a.to_row, user_b.to_row] }

/-- A client whose queries yield back exactly the inserted sample record. -/
def roundtrip_client : Client :=
  { prepare := fun s => .ok s, query := fun _ _ => .ok [sample_user.to_row] }

/-- Converting the row of a record recovers that record exactly. -/
theorem from_row_ref_to_row (u : User) : User.from_row_ref u.to_row = Except.ok u := by
  cases u; rfl

/-- Mapping rows with unwrap never yields a returned typed error: every
failure of row conversion is a panic, not an error value. -/
theorem map_rows_unwrap_no_typed_error :
    ∀ (rows : List Row) (e : MyError), map_rows_unwrap rows ≠ Outcome.err e := by
  intro rows
  induction rows with
  | nil => intro e h; simp [map_rows_unwrap] at h
  | cons r rest ih =>
    intro e h
    simp only [map_rows_unwrap] at h
    cases hr : User.from_row_ref r with
    | error pe => rw [hr] at h; simp at h
    | ok u =>
      rw [hr] at h
      cases hm : map_rows_unwrap rest with
      | ok us => rw [hm] at h; simp at h
      | err e2 => exact ih e2 hm
      | fault m => rw [hm] at h; simp at h

/-- Claim C1: when the CreateUser repository operation returns a typed
error (here NotFound, from an INSERT yielding zero rows), the POST /users
handler does not translate it into a wire-level error response: it faults
(panics through expect) instead of responding. -/
theorem add_user_handler_faults_on_repository_error :
    (db.add_user empty_result_client sample_user).1 = Outcome.err MyError.NotFound ∧
    (handlers.add_user (Except.ok empty_result_client) sample_user).1 =
      Wire.fault "could not create user" :=
  ⟨rfl, rfl⟩

/-- Claim C2: on a row whose conversion to a User fails (the email column
is missing), each of the three repository operations panics through unwrap
instead of returning the MappingError (PGMError) variant. -/
theorem row_mapping_failure_panics_not_mapping_error :
    User.from_row_ref bad_row = Except.error PGMError.columnNotFound ∧
    (db.add_user bad_row_client sample_user).1 = Outcome.fault unwrap_msg ∧
    (db.get_users bad_row_client).1 = Outcome.fault unwrap_msg ∧
    (db.get_user_by_id bad_row_client 1).1 = Outcome.fault unwrap_msg :=
  ⟨rfl, rfl, rfl, rfl⟩

/-- Claim C3, counterexample: on a two-row result whose first row maps to
user_a, GetUserByID returns user_b (mapped from the other row), not the
record mapped from the first row. -/
theorem get_user_by_id_not_first_row :
    User.from_row_ref user_a.to_row = Except.ok user_a ∧
    (db.get_user_by_id two_row_client 1).1 = Outcome.ok user_b ∧
    user_b ≠ user_a :=
  ⟨rfl, rfl, by decide⟩

/-- Claim C3, amended: on a query result with several rows all of which
convert, GetUserByID returns the record mapped from the LAST row of the
result set (Vec::pop removes the last element). -/
theorem get_user_by_id_returns_last_row (client : Client) (id : Nat) (ps : String)
    (rows : List Row) (users : List User)
    (hp : client.prepare get_user_by_id_stmt_text = Except.ok ps)
    (hq : client.query ps [SqlValue.int id] = Except.ok rows)
    (hm : map_rows_unwrap rows = Outcome.ok users)
    (hne : users ≠ []) :
    (db.get_user_by_id client id).1 = Outcome.ok (users.getLast hne) := by
  unfold db.get_user_by_id
  simp only [hp, hq, hm, List.getLast?_eq_getLast users hne]

/-- Witness for the amended Claim C3 at the two-row fixture. -/
theorem get_user_by_id_returns_last_row_witness :
    (db.get_user_by_id two_row_client 1).1 =
      Outcome.ok ([user_a, user_b].getLast (by decide)) :=
  get_user_by_id_returns_last_row two_row_client 1 get_user_by_id_stmt_text
    [user_a.to_row, user_b.to_row] [user_a, user_b] rfl rfl rfl (by decide)

/-- Claim C4: when the query for an identifier yields zero rows,
GetUserByID returns the NotFound variant (so never QueryError), and the
GET handler for that id responds 404 with empty body. -/
theorem get_user_by_id_zero_rows_not_found (client : Client) (id : Nat) (ps : String)
    (hp : client.prepare get_user_by_id_stmt_text = Except.ok ps)
    (hq : client.query ps [SqlValue.int id] = Except.ok []) :
    (db.get_user_by_id client id).1 = Outcome.err MyError.NotFound ∧
    (handlers.get_user_by_id (Except.ok client) id).1 =
      Wire.response ⟨404, Body.empty⟩ := by
  have h1 : db.get_user_by_id client id = (Outcome.err .NotFound, [⟨ps, [.int id]⟩]) := by
    unfold db.get_user_by_id
    simp [hp, hq, map_rows_unwrap]
  refine ⟨by rw [h1], ?_⟩
  unfold handlers.get_user_by_id
  simp [h1, MyError.error_response]

/-- Witness for Claim C4 at an absent identifier. -/
theorem get_user_by_id_zero_rows_not_found_witness :
    (db.get_user_by_id empty_result_client 999999).1 = Outcome.err MyError.NotFound ∧
    (handlers.get_user_by_id (Except.ok empty_result_client) 999999).1 =
      Wire.response ⟨404, Body.empty⟩ :=
  get_user_by_id_zero_rows_not_found empty_result_client 999999
    get_user_by_id_stmt_text rfl rfl

/-- Claim C5: when the INSERT of CreateUser yields an empty result set,
the operation returns the NotFound variant, not QueryError or a success. -/
theorem add_user_zero_rows_not_found (client : Client) (u : User) (ps : String)
    (hp : client.prepare add_user_stmt_text = Except.ok ps)
    (hq : client.query ps (add_user_params u) = Except.ok []) :
    (db.add_user client u).1 = Outcome.err MyError.NotFound := by
  unfold db.add_user
  simp [hp, hq, map_rows_unwrap]

/-- Witness for Claim C5 at the empty-result client. -/
theorem add_user_zero_rows_not_found_witness :
    (db.add_user empty_result_client sample_user).1 = Outcome.err MyError.NotFound :=
  add_user_zero_rows_not_found empty_result_client sample_user add_user_stmt_text rfl rfl

/-- Claim C6: ListUsers returns a successful empty sequence when the query
yields zero rows, and returns the QueryError (PGError) variant exactly
when statement execution fails. -/
theorem get_users_empty_ok_and_query_error_iff (client : Client) (ps : String)
    (hp : client.prepare get_users_stmt_text = Except.ok ps) :
    (client.query ps [] = Except.ok [] → (db.get_users client).1 = Outcome.ok []) ∧
    (∀ e, (db.get_users client).1 = Outcome.err (MyError.PGError e) ↔
      client.query ps [] = Except.error e) := by
  constructor
  · intro hq
    unfold db.get_users
    simp [hp, hq, map_rows_unwrap]
  · intro e
    unfold db.get_users
    simp only [hp]
    cases hq : client.query ps [] with
    | error e2 => simp [hq]
    | ok rows =>
      simp only [hq]
      cases hm : map_rows_unwrap rows with
      | ok us => simp [hm]
      | err e2 => exact absurd hm (map_rows_unwrap_no_typed_error rows e2)
      | fault m => simp [hm]

/-- Witness for Claim C6: the empty table yields a successful empty list. -/
theorem get_users_empty_ok_and_query_error_iff_witness :
    (db.get_users empty_result_client).1 = Outcome.ok [] :=
  (get_users_empty_ok_and_query_error_iff empty_result_client
    get_users_stmt_text rfl).1 rfl

/-- Claim C7: the error-to-HTTP translation maps NotFound to 404,
pool-acquisition failure to 500 with the pool error message as body, and
every other variant (query failure, mapping failure) to 500 with an empty
body. -/
theorem error_response_taxonomy :
    MyError.NotFound.error_response = ⟨404, Body.empty⟩ ∧
    (∀ msg, (MyError.PoolError msg).error_response = ⟨500, Body.text msg⟩) ∧
    (∀ e, (MyError.PGError e).error_response = ⟨500, Body.empty⟩) ∧
    (∀ m, (MyError.PGMError m).error_response = ⟨500, Body.empty⟩) :=
  ⟨rfl, fun _ => rfl, fun _ => rfl, fun _ => rfl⟩

/-- Claim C8: CreateUser binds exactly the four record fields in the order
email, first_name, last_name, username; that order is the canonical field
list of the record, and the same list (through sql_table_fields) is what
the INSERT statement template is built from. -/
theorem add_user_params_match_canonical_field_order :
    (∀ u : User, add_user_params u =
      User.field_names.map (fun f => SqlValue.text (u.get_field f))) ∧
    User.field_names = ["email", "first_name", "last_name", "username"] ∧
    add_user_stmt_text = add_user_sql.replace "$table_fields" User.sql_table_fields ∧
    User.sql_table_fields =
      String.intercalate ", " (User.field_names.map (fun f => "users." ++ f)) :=
  ⟨fun _ => rfl, rfl, rfl, rfl⟩

/-- Claim C9: when the store answers the INSERT with exactly the inserted
row, CreateUser succeeds and returns a record equal to its input. -/
theorem add_user_roundtrip_identity (client : Client) (u : User) (ps : String)
    (hp : client.prepare add_user_stmt_text = Except.ok ps)
    (hq : client.query ps (add_user_params u) = Except.ok [u.to_row]) :
    (db.add_user client u).1 = Outcome.ok u := by
  unfold db.add_user
  simp [hp, hq, map_rows_unwrap, from_row_ref_to_row]

/-- Witness for Claim C9 at the round-trip client and sample record. -/
theorem add_user_roundtrip_identity_witness :
    (db.add_user roundtrip_client sample_user).1 = Outcome.ok sample_user :=
  add_user_roundtrip_identity roundtrip_client sample_user add_user_stmt_text rfl rfl

/-- Claim C10: in each of the three handlers, a pool-acquisition failure
yields the PoolError response and an empty query trace: no statement is
prepared or executed, so the store is untouched. -/
theorem handlers_pool_failure_short_circuit (e : String) (body : User) (id : Nat) :
    handlers.add_user (Except.error e) body =
      (Wire.response (MyError.PoolError e).error_response, []) ∧
    handlers.get_users (Except.error e) =
      (Wire.response (MyError.PoolError e).error_response, []) ∧
    handlers.get_user_by_id (Except.error e) id =
      (Wire.response (MyError.PoolError e).error_response, []) :=
  ⟨rfl, rfl, rfl⟩
